import Mathlib

/-
Verification development for the simple-life ecosystem simulator.

The simulator's numeric types (f32/f64) are modelled by the rationals; every
arithmetic expression of the source is translated literally.  The source's
f64::sqrt is modelled by sqrtQ, which agrees with the real square root on
perfect squares (all concrete scenarios below use perfect-square distances);
none of the universally quantified theorems depend on the value of sqrtQ.
Randomness (rand::rng draws) is modelled by explicit draw parameters, one
field per call site of the source.
-/

set_option allowUnsafeReducibility true in
attribute [semireducible] Rat.add Rat.mul Rat.sub Rat.inv Rat.ofScientific

namespace SimpleLife

/-- WINDOW_SIZE constant from main.rs. -/
def WINDOW_SIZE : ℚ := 800

/-- BASE_BEING_SIZE constant from main.rs (named BASE_BEING_SIZE in being.rs imports). -/
def BASE_BEING_SIZE : ℚ := 10

/-- MAX_BEINGS population cap from main.rs. -/
def MAX_BEINGS : ℕ := 220

/-- MAX_FOOD cap from main.rs. -/
def MAX_FOOD : ℕ := 790

/-- FOOD_SPAWN_RATE from main.rs (0.99). -/
def FOOD_SPAWN_RATE : ℚ := 99/100

/-- ENERGY_DECAY from main.rs (0.0000015). -/
def ENERGY_DECAY : ℚ := 15/10000000

/-- Largest k at most the first argument whose square is at most n (a
structurally recursive integer square root used by sqrtQ). -/
def sqrtBelow : ℕ → ℕ → ℕ
  | 0, _ => 0
  | k + 1, n => if (k + 1) * (k + 1) ≤ n then k + 1 else sqrtBelow k n

/-- Integer square root by downward search. -/
def natSqrt (n : ℕ) : ℕ := sqrtBelow n n

/-- Model of f64::sqrt: exact on rationals whose reduced numerator and
denominator are perfect squares; no theorem depends on its value elsewhere. -/
def sqrtQ (q : ℚ) : ℚ := (natSqrt q.num.toNat : ℚ) / (natSqrt q.den : ℚ)

/-- Truncation toward zero, the rounding of Rust's f64-to-integer cast. -/
def truncQ (q : ℚ) : ℤ := Int.tdiv q.num (q.den : ℤ)

/-- Model of the saturating Rust cast expression (x as i32) for finite x. -/
def asI32 (q : ℚ) : ℤ := max (-2147483648) (min (truncQ q) 2147483647)

/-- Rust's clamp(lo, hi): if below lo take lo, if above hi take hi, else x. -/
def clampQ (x lo hi : ℚ) : ℚ := if x < lo then lo else if x > hi then hi else x

/-- Iterator::min_by_key: first element attaining the minimal key (Rust's
min_by_key keeps the first of equally minimal elements; the carnivore's
stable sort_by followed by [0] has the same first-minimum semantics). -/
def minByFirst {α β : Type} [LinearOrder β] (key : α → β) (l : List α) : Option α :=
  l.foldl (fun acc a =>
    match acc with
    | none => some a
    | some m => if key a < key m then some a else some m) none

/-- BeingType enum from being.rs. -/
inductive BeingType
  | Herbivore
  | Carnivore
  | Omnivore
deriving DecidableEq

/-- Genetics struct from genetics.rs. -/
structure Genetics where
  speed : ℚ
  size : ℚ
  reproduction_rate : ℚ
  perception : ℚ
deriving DecidableEq

/-- Draws consumed by Genetics::mutate: one uniform factor from [0.9,1.1) per trait. -/
structure MutDraws where
  fspeed : ℚ
  fsize : ℚ
  frate : ℚ
  fperc : ℚ
deriving DecidableEq

/-- Genetics::mutate from genetics.rs: multiply each trait by its drawn factor,
then clamp to the fixed per-trait bound table. -/
def Genetics.mutate (g : Genetics) (d : MutDraws) : Genetics :=
  { speed := clampQ (g.speed * d.fspeed) (1/2) 3
    size := clampQ (g.size * d.fsize) (1/2) 2
    reproduction_rate := clampQ (g.reproduction_rate * d.frate) (1/10) 2
    perception := clampQ (g.perception * d.fperc) 2 30 }

/-- Food struct from food.rs. -/
structure Food where
  x : ℚ
  y : ℚ
  energy : ℚ
deriving DecidableEq

/-- Being struct from being.rs. -/
structure Being where
  x : ℚ
  y : ℚ
  color : ℚ × ℚ × ℚ × ℚ
  energy : ℚ
  being_type : BeingType
  genetics : Genetics
  age : ℕ
  max_age : ℕ
deriving DecidableEq

/-- Per-being random draws for one tick, one field per rng call site of
Being::update and its helpers. -/
structure Draws where
  jx : ℚ
  jy : ℚ
  huntBranch : Bool
  roll : ℚ
  cdx : ℚ
  cdy : ℚ
  mutd : MutDraws
deriving DecidableEq

/-- Being::size. -/
def Being.size (b : Being) : ℚ := BASE_BEING_SIZE * b.genetics.size

/-- Being::random_movement: jitter each coordinate by a draw from (-1,1) times speed. -/
def Being.random_movement (b : Being) (d : Draws) : Being :=
  { b with x := b.x + d.jx * b.genetics.speed, y := b.y + d.jy * b.genetics.speed }

/-- Being::update_herbivore from being.rs: approach, within the eating radius
consume, the nearest food item; random movement when none is perceivable. -/
def Being.update_herbivore (b : Being) (foods : List Food) (pr : ℚ) (d : Draws) :
    Being × List ℕ :=
  match minByFirst
      (fun p : ℕ × Food =>
        asI32 (((p.2.x - b.x) * (p.2.x - b.x) + (p.2.y - b.y) * (p.2.y - b.y)) * 1000))
      foods.enum with
  | none => (b.random_movement d, [])
  | some (idx, nf) =>
    let dx := nf.x - b.x
    let dy := nf.y - b.y
    let distance := sqrtQ (dx * dx + dy * dy)
    if distance < pr then
      let b1 : Being :=
        { b with x := b.x + dx / distance * b.genetics.speed * (3/2),
                 y := b.y + dy / distance * b.genetics.speed * (3/2) }
      if distance < b.size / 2 + 5/2 then
        ({ b1 with energy := b1.energy + nf.energy }, [idx])
      else (b1, [])
    else (b.random_movement d, [])

/-- Being::update_carnivore from being.rs: rank candidate prey (smaller than
size*1.1, within perception*1.5) by squared distance times (1.1 - energy),
chase the best, and on contact capture it, gaining 95% of its energy. -/
def Being.update_carnivore (b : Being) (beings : List Being) (pr : ℚ) (d : Draws) :
    Being × Option Being :=
  let potential := beings.filter (fun p =>
    decide (p.size < b.size * (11/10)) &&
    decide (sqrtQ ((p.x - b.x) * (p.x - b.x) + (p.y - b.y) * (p.y - b.y)) < pr * (3/2)))
  match minByFirst
      (fun p : Being =>
        ((p.x - b.x) * (p.x - b.x) + (p.y - b.y) * (p.y - b.y)) * (11/10 - p.energy))
      potential with
  | none =>
    ({ b with x := b.x + d.jx * b.genetics.speed * (3/2),
              y := b.y + d.jy * b.genetics.speed * (3/2) }, none)
  | some target =>
    let dx := target.x - b.x
    let dy := target.y - b.y
    let distance := sqrtQ (dx * dx + dy * dy)
    let m : ℚ := if distance < pr then 7/2 else 5/2
    let b1 : Being :=
      { b with x := b.x + dx / distance * b.genetics.speed * m,
               y := b.y + dy / distance * b.genetics.speed * m }
    if distance < b.size / 2 + target.size / 2 then
      ({ b1 with energy := b1.energy + target.energy * (19/20) }, some target)
    else (b1, none)

/-- Being::update_omnivore before its trailing random_movement call: the hunt
branch (taken when random_bool(0.7) fires) or the forage branch. -/
def Being.omnivore_pre (b : Being) (beings : List Being) (foods : List Food)
    (pr : ℚ) (d : Draws) : Being × Option Being × List ℕ :=
  if d.huntBranch then
    match minByFirst
        (fun p : Being =>
          asI32 (((p.x - b.x) * (p.x - b.x) + (p.y - b.y) * (p.y - b.y)) * (1 + p.energy)))
        (beings.filter (fun p => decide (p.size < b.size * (9/10)))) with
    | none => (b, none, [])
    | some target =>
      let dx := target.x - b.x
      let dy := target.y - b.y
      let distance := sqrtQ (dx * dx + dy * dy)
      if distance < pr then
        let b1 : Being :=
          { b with x := b.x + dx / distance * b.genetics.speed * (11/5),
                   y := b.y + dy / distance * b.genetics.speed * (11/5) }
        if distance < b.size / 2 + target.size / 2 then
          ({ b1 with energy := b1.energy + target.energy * (17/20) }, some target, [])
        else (b1, none, [])
      else (b, none, [])
  else
    match minByFirst
        (fun p : ℕ × Food =>
          asI32 (((p.2.x - b.x) * (p.2.x - b.x) + (p.2.y - b.y) * (p.2.y - b.y)) * 1000))
        foods.enum with
    | none => (b, none, [])
    | some (idx, nf) =>
      let dx := nf.x - b.x
      let dy := nf.y - b.y
      let distance := sqrtQ (dx * dx + dy * dy)
      if distance < pr * (6/5) then
        let b1 : Being :=
          { b with x := b.x + dx / distance * b.genetics.speed * (9/5),
                   y := b.y + dy / distance * b.genetics.speed * (9/5) }
        if distance < b.size / 2 + 5/2 then
          ({ b1 with energy := b1.energy + nf.energy * (6/5) }, none, [idx])
        else (b1, none, [])
      else (b, none, [])

/-- Being::update_omnivore from being.rs: on capture return immediately
(skipping the trailing random_movement), otherwise jitter and return. -/
def Being.update_omnivore (b : Being) (beings : List Being) (foods : List Food)
    (pr : ℚ) (d : Draws) : Being × Option Being × List ℕ :=
  let r := Being.omnivore_pre b beings foods pr d
  match r.2.1 with
  | some p => (r.1, some p, r.2.2)
  | none => (r.1.random_movement d, none, r.2.2)

/-- Species base reproduction chance from Being::can_replicate. -/
def baseChance : BeingType → ℚ
  | .Carnivore => 16/10000
  | .Omnivore => 13/10000
  | .Herbivore => 11/10000

/-- Being::can_replicate with the uniform [0,1) roll made explicit. -/
def Being.can_replicate (b : Being) (roll : ℚ) : Bool :=
  decide ((4:ℚ)/5 < b.energy) &&
  decide (roll < baseChance b.being_type * b.genetics.reproduction_rate) &&
  decide (80 < b.age) &&
  decide (b.age < b.max_age)

/-- Being::replicate: returns (parent after halving, child).  The child clones
the parent, offsets its position by the (-20,20) draws, takes half the
parent's pre-halving energy, mutated genetics and age 0. -/
def Being.replicate (b : Being) (d : Draws) : Being × Being :=
  let child : Being :=
    { b with x := b.x + d.cdx, y := b.y + d.cdy, energy := b.energy * (1/2),
             genetics := b.genetics.mutate d.mutd, age := 0 }
  ({ b with energy := b.energy * (1/2) }, child)

/-- Clamp of Being::update lines 92-93: position forced into [0, WINDOW_SIZE - size]. -/
def Being.clampPos (b : Being) : Being :=
  { b with x := min (max b.x 0) (WINDOW_SIZE - b.size),
           y := min (max b.y 0) (WINDOW_SIZE - b.size) }

/-- Common prologue of Being::update: age increment and energy decay. -/
def Being.decayAge (b : Being) : Being :=
  { b with age := b.age + 1,
           energy := b.energy - ENERGY_DECAY * (b.genetics.size + b.genetics.speed) }

/-- The filtered_beings computation at the top of Being::update. -/
def Being.filteredFrom (b : Being) (beings : List Being) : List Being :=
  match b.being_type with
  | .Herbivore => []
  | .Carnivore => beings.filter (fun p =>
      match p.being_type with
      | .Herbivore => true
      | .Omnivore => true
      | .Carnivore => false)
  | .Omnivore => beings.filter (fun p => decide (¬ p.being_type = b.being_type))

/-- Species dispatch of Being::update: (moved self, eaten food indices, captured prey). -/
def Being.branch (b : Being) (filtered : List Being) (foods : List Food)
    (pr : ℚ) (d : Draws) : Being × List ℕ × Option Being :=
  match b.being_type with
  | .Herbivore =>
    let r := b.update_herbivore foods pr d
    (r.1, r.2, none)
  | .Carnivore =>
    let r := b.update_carnivore filtered pr d
    (r.1, [], r.2)
  | .Omnivore =>
    let r := b.update_omnivore filtered foods pr d
    (r.1, r.2.2, r.2.1)

/-- Prologue plus species dispatch of Being::update. -/
def Being.branchFull (b : Being) (beings : List Being) (foods : List Food)
    (d : Draws) : Being × List ℕ × Option Being :=
  Being.branch b.decayAge (b.filteredFrom beings) foods b.genetics.perception d

/-- The captured-prey component of the tick's species branch for a being. -/
def Being.preyOf (b : Being) (beings : List Being) (foods : List Food)
    (d : Draws) : Option Being :=
  (Being.branchFull b beings foods d).2.2

/-- Result of Being::update: the mutated self, the eaten food indices, and the
single Option<Being> slot that carries either a captured prey or an offspring. -/
structure UpdateResult where
  self : Being
  eaten : List ℕ
  out : Option Being
deriving DecidableEq

/-- Being::update from being.rs.  A capture returns early (no clamp, no
reproduction check); otherwise the position is clamped and the reproduction
check runs once on the finalized self. -/
def Being.update (b : Being) (beings : List Being) (foods : List Food)
    (d : Draws) : UpdateResult :=
  match Being.preyOf b beings foods d with
  | some p => ⟨(Being.branchFull b beings foods d).1, (Being.branchFull b beings foods d).2.1, some p⟩
  | none =>
    if (Being.clampPos (Being.branchFull b beings foods d).1).can_replicate d.roll then
      ⟨((Being.clampPos (Being.branchFull b beings foods d).1).replicate d).1,
       (Being.branchFull b beings foods d).2.1,
       some ((Being.clampPos (Being.branchFull b beings foods d).1).replicate d).2⟩
    else
      ⟨Being.clampPos (Being.branchFull b beings foods d).1,
       (Being.branchFull b beings foods d).2.1, none⟩

/-- SimulationStats struct from main.rs. -/
structure SimulationStats where
  total_births : ℕ
  total_deaths : ℕ
  max_population : ℕ
  food_eaten : ℕ
  energy_history : List ℚ
  population_history : List ℕ
deriving DecidableEq

/-- Mutable world of the main loop: beings, foods and statistics. -/
structure WorldState where
  beings : List Being
  foods : List Food
  stats : SimulationStats
deriving DecidableEq

/-- Per-tick draws of the main loop: the food-spawn roll, the spawned food's
sampled fields, and one Draws bundle per being index. -/
structure TickDraws where
  spawnRoll : ℚ
  newFood : Food
  d : ℕ → Draws

/-- Guarded removal of the food-commit loop: an index past the current length
is silently skipped. -/
def removeIdx (l : List Food) (i : ℕ) : List Food :=
  if i < l.length then l.eraseIdx i else l

/-- Food spawning gate of main.rs: below the cap and a passing roll appends one item. -/
def spawnFoods (foods : List Food) (td : TickDraws) : List Food :=
  if foods.length < MAX_FOOD ∧ td.spawnRoll < FOOD_SPAWN_RATE then foods ++ [td.newFood]
  else foods

/-- The parallel fan-out of main.rs: every being updated against the pre-tick
being snapshot and the post-spawn food snapshot. -/
def updatesOf (w : WorldState) (td : TickDraws) : List UpdateResult :=
  w.beings.enum.map (fun ia => Being.update ia.2 w.beings (spawnFoods w.foods td) (td.d ia.1))

/-- The food-removal commit: per update, eaten indices processed in reverse order. -/
def commitFoods (updates : List UpdateResult) (foods : List Food) : List Food :=
  updates.foldl (fun fs u => u.eaten.reverse.foldl removeIdx fs) foods

/-- The flat_map of the commit phase: each updated self followed by the
contents of its Option<Being> slot (offspring or captured prey alike). -/
def mergeBirths : List UpdateResult → List Being
  | [] => []
  | u :: rest =>
    match u.out with
    | some c => u.self :: c :: mergeBirths rest
    | none => u.self :: mergeBirths rest

/-- The alive filter of the commit phase: a being is kept unless its energy is
nonpositive or its age exceeds max_age. -/
def aliveP (b : Being) : Bool :=
  ! (decide (b.energy ≤ 0) || decide (b.age > b.max_age))

/-- History-buffer bound of main.rs: drop the oldest entry past 1000. -/
def trim1000 {α : Type} (l : List α) : List α :=
  if l.length > 1000 then l.eraseIdx 0 else l

/-- Average energy pushed into energy_history (over the updated selves). -/
def avgEnergy (selves : List Being) : ℚ :=
  (selves.map (fun b => b.energy)).sum / (selves.length : ℚ)

/-- One iteration of the main loop of main.rs: history push, food spawn,
parallel update fan-out, food-removal commit, birth/death commit with the
alive filter, population-cap truncation, and history trimming. -/
def step (w : WorldState) (td : TickDraws) : WorldState :=
  let pop := w.beings.length
  let foods1 := spawnFoods w.foods td
  let updates := updatesOf w td
  let foods2 := commitFoods updates foods1
  let selves := updates.map (fun u => u.self)
  let merged := mergeBirths updates
  let survivors := merged.filter aliveP
  let beings2 := if survivors.length > MAX_BEINGS then survivors.take MAX_BEINGS else survivors
  { beings := beings2
    foods := foods2
    stats :=
      { total_births := w.stats.total_births + updates.countP (fun u => u.out.isSome)
        total_deaths := w.stats.total_deaths + merged.countP (fun b => ! aliveP b)
        max_population := if pop > w.stats.max_population then pop else w.stats.max_population
        food_eaten := w.stats.food_eaten + (updates.map (fun u => u.eaten.length)).sum
        energy_history := trim1000 (if w.beings.isEmpty then w.stats.energy_history
          else w.stats.energy_history ++ [avgEnergy selves])
        population_history := trim1000 (w.stats.population_history ++ [pop]) } }

/-
General lemmas about the embedded operations.
-/

/-- Rust's clamp lands in [lo, hi] whenever lo is at most hi, whatever the input. -/
theorem clampQ_mem (x lo hi : ℚ) (h : lo ≤ hi) :
    lo ≤ clampQ x lo hi ∧ clampQ x lo hi ≤ hi := by
  unfold clampQ
  split_ifs with h1 h2
  · exact ⟨le_refl lo, h⟩
  · exact ⟨h, le_refl hi⟩
  · exact ⟨le_of_not_lt h1, le_of_not_gt h2⟩

/-- The clamp of Being::update lands in [0, c] whenever 0 is at most c. -/
theorem minmax_mem (x c : ℚ) (h : 0 ≤ c) :
    0 ≤ min (max x 0) c ∧ min (max x 0) c ≤ c :=
  ⟨le_min (le_max_right x 0) h, min_le_right _ _⟩

/-- Removing one index never lengthens a list. -/
theorem eraseIdx_len_le (l : List Food) (i : ℕ) : (l.eraseIdx i).length ≤ l.length := by
  induction l generalizing i with
  | nil => simp [List.eraseIdx]
  | cons a t ih =>
    cases i with
    | zero => simp [List.eraseIdx]
    | succ j =>
      simp only [List.eraseIdx, List.length_cons]
      exact Nat.succ_le_succ (ih j)

/-- The guarded removal never lengthens the food list. -/
theorem removeIdx_len_le (l : List Food) (i : ℕ) : (removeIdx l i).length ≤ l.length := by
  unfold removeIdx
  split
  · exact eraseIdx_len_le l i
  · exact le_refl _

/-- Folding guarded removals never lengthens the food list. -/
theorem foldRemove_len_le (idxs : List ℕ) (fs : List Food) :
    (idxs.foldl removeIdx fs).length ≤ fs.length := by
  induction idxs generalizing fs with
  | nil => exact le_refl _
  | cons i t ih => exact le_trans (ih (removeIdx fs i)) (removeIdx_len_le fs i)

/-- The food-removal commit never lengthens the food list. -/
theorem commitFoods_len_le (us : List UpdateResult) (fs : List Food) :
    (commitFoods us fs).length ≤ fs.length := by
  unfold commitFoods
  induction us generalizing fs with
  | nil => exact le_refl _
  | cons u t ih =>
    simp only [List.foldl_cons]
    exact le_trans (ih _) (foldRemove_len_le u.eaten.reverse fs)

/-- Counting the failures of a predicate is the length minus the filter's length. -/
theorem countP_not_eq (p : Being → Bool) (l : List Being) :
    l.countP (fun b => ! p b) = l.length - (l.filter p).length := by
  induction l with
  | nil => simp
  | cons a t ih =>
    have hl : (List.filter p t).length ≤ t.length := List.length_filter_le p t
    by_cases h : p a
    · simp [List.countP_cons, List.filter, h, ih]
    · simp [List.countP_cons, List.filter, h, ih]
      omega

/-- The herbivore branch never changes the genetics. -/
theorem update_herbivore_genetics (b : Being) (foods : List Food) (pr : ℚ) (d : Draws) :
    (Being.update_herbivore b foods pr d).1.genetics = b.genetics := by
  unfold Being.update_herbivore
  dsimp only
  split
  · simp [Being.random_movement]
  · split_ifs <;> simp [Being.random_movement]

/-- The carnivore branch never changes the genetics. -/
theorem update_carnivore_genetics (b : Being) (beings : List Being) (pr : ℚ) (d : Draws) :
    (Being.update_carnivore b beings pr d).1.genetics = b.genetics := by
  unfold Being.update_carnivore
  dsimp only
  split
  · rfl
  · split_ifs <;> rfl

/-- The omnivore hunt/forage phase never changes the genetics. -/
theorem omnivore_pre_genetics (b : Being) (beings : List Being) (foods : List Food)
    (pr : ℚ) (d : Draws) :
    (Being.omnivore_pre b beings foods pr d).1.genetics = b.genetics := by
  unfold Being.omnivore_pre
  dsimp only
  split <;> split <;> try rfl
  · split_ifs <;> rfl
  · split_ifs <;> rfl

/-- The omnivore branch never changes the genetics. -/
theorem update_omnivore_genetics (b : Being) (beings : List Being) (foods : List Food)
    (pr : ℚ) (d : Draws) :
    (Being.update_omnivore b beings foods pr d).1.genetics = b.genetics := by
  unfold Being.update_omnivore
  dsimp only
  split
  · exact omnivore_pre_genetics b beings foods pr d
  · simp only [Being.random_movement]
    exact omnivore_pre_genetics b beings foods pr d

/-- No species branch changes the genetics. -/
theorem branch_genetics (b : Being) (filtered : List Being) (foods : List Food)
    (pr : ℚ) (d : Draws) :
    (Being.branch b filtered foods pr d).1.genetics = b.genetics := by
  unfold Being.branch
  split
  · exact update_herbivore_genetics b foods pr d
  · exact update_carnivore_genetics b filtered pr d
  · exact update_omnivore_genetics b filtered foods pr d

/-- The prologue and species branch of Being::update keep the being's genetics. -/
theorem branchFull_genetics (b : Being) (beings : List Being) (foods : List Food)
    (d : Draws) :
    (Being.branchFull b beings foods d).1.genetics = b.genetics := by
  unfold Being.branchFull
  rw [branch_genetics]
  rfl

/-- A herbivore that eats no food keeps its energy through its branch. -/
theorem update_herbivore_energy (b : Being) (foods : List Food) (pr : ℚ) (d : Draws)
    (h : (Being.update_herbivore b foods pr d).2 = []) :
    (Being.update_herbivore b foods pr d).1.energy = b.energy := by
  revert h
  unfold Being.update_herbivore
  dsimp only
  split
  · intro _
    simp [Being.random_movement]
  · split_ifs <;> intro h <;>
      first
        | rfl
        | simp at h

/-- A carnivore that captures no prey keeps its energy through its branch. -/
theorem update_carnivore_energy (b : Being) (beings : List Being) (pr : ℚ) (d : Draws)
    (h : (Being.update_carnivore b beings pr d).2 = none) :
    (Being.update_carnivore b beings pr d).1.energy = b.energy := by
  revert h
  unfold Being.update_carnivore
  dsimp only
  split
  · intro _
    rfl
  · split_ifs <;> intro h <;>
      first
        | rfl
        | simp at h

/-- An omnivore hunt/forage phase with no capture and no eaten food keeps the energy. -/
theorem omnivore_pre_energy (b : Being) (beings : List Being) (foods : List Food)
    (pr : ℚ) (d : Draws)
    (hp : (Being.omnivore_pre b beings foods pr d).2.1 = none)
    (he : (Being.omnivore_pre b beings foods pr d).2.2 = []) :
    (Being.omnivore_pre b beings foods pr d).1.energy = b.energy := by
  revert hp he
  unfold Being.omnivore_pre
  dsimp only
  split <;> split <;>
    first
      | (intro _ _; rfl)
      | (split_ifs <;> intro hp he <;>
          first
            | rfl
            | simp_all)

/-- An omnivore that captures no prey and eats no food keeps its energy. -/
theorem update_omnivore_energy (b : Being) (beings : List Being) (foods : List Food)
    (pr : ℚ) (d : Draws)
    (hp : (Being.update_omnivore b beings foods pr d).2.1 = none)
    (he : (Being.update_omnivore b beings foods pr d).2.2 = []) :
    (Being.update_omnivore b beings foods pr d).1.energy = b.energy := by
  revert hp he
  unfold Being.update_omnivore
  dsimp only
  split
  · intro hp he
    simp at hp
  · next heq =>
    intro hp he
    simp only [Being.random_movement]
    exact omnivore_pre_energy b beings foods pr d heq he

/-- When the omnivore branch captures nothing, the final position is the
hunt/forage position plus the unconditional jitter. -/
theorem update_omnivore_of_none (b : Being) (beings : List Being) (foods : List Food)
    (pr : ℚ) (d : Draws)
    (hp : (Being.update_omnivore b beings foods pr d).2.1 = none) :
    (Being.update_omnivore b beings foods pr d).1
      = (Being.omnivore_pre b beings foods pr d).1.random_movement d := by
  revert hp
  unfold Being.update_omnivore
  dsimp only
  split
  · intro hp
    simp at hp
  · intro _
    rfl

/-- A being whose branch neither captures prey nor eats food keeps its
post-decay energy through the species branch. -/
theorem branch_energy (b : Being) (filtered : List Being) (foods : List Food)
    (pr : ℚ) (d : Draws)
    (hp : (Being.branch b filtered foods pr d).2.2 = none)
    (he : (Being.branch b filtered foods pr d).2.1 = []) :
    (Being.branch b filtered foods pr d).1.energy = b.energy := by
  revert hp he
  unfold Being.branch
  dsimp only
  split
  · intro hp he
    exact update_herbivore_energy b foods pr d he
  · intro hp he
    exact update_carnivore_energy b filtered pr d hp
  · intro hp he
    exact update_omnivore_energy b filtered foods pr d hp he

/-- Prologue plus branch: with no capture and no eaten food the energy after
the species branch is exactly the decayed energy. -/
theorem branchFull_energy (b : Being) (beings : List Being) (foods : List Food)
    (d : Draws)
    (hp : (Being.branchFull b beings foods d).2.2 = none)
    (he : (Being.branchFull b beings foods d).2.1 = []) :
    (Being.branchFull b beings foods d).1.energy
      = b.energy - ENERGY_DECAY * (b.genetics.size + b.genetics.speed) := by
  unfold Being.branchFull at hp he ⊢
  rw [branch_energy _ _ _ _ _ hp he]
  simp only [Being.decayAge]

/-
Concrete scenarios.  All distances below are perfect squares, where sqrtQ
coincides with the real square root.
-/

/-- Genetics of a plain reference herbivore. -/
def gH : Genetics := ⟨1, 1, 1, 10⟩

/-- A plain herbivore of reproductive age used by several witnesses. -/
def bH : Being := ⟨100, 100, (0, 0, 0, 0), 1, .Herbivore, gH, 100, 3000⟩

/-- Neutral draws: zero jitter, failing reproduction roll, identity mutation factors. -/
def dZ : Draws := ⟨0, 0, false, 1, 0, 0, ⟨1, 1, 1, 1⟩⟩

/-- Draws with a passing reproduction roll and child offset (5,-5). -/
def dR : Draws := ⟨0, 0, false, 0, 5, -5, ⟨1, 1, 1, 1⟩⟩

/-- Zeroed statistics record. -/
def stats0 : SimulationStats := ⟨0, 0, 0, 0, [], []⟩

/-- Tick draws with a failing spawn roll and neutral per-being draws. -/
def tdZ : TickDraws := ⟨1, ⟨0, 0, 0⟩, fun _ => dZ⟩

/-- Genetics of the chasing carnivore of the capture scenarios. -/
def gCarn : Genetics := ⟨4, 1, 1, 20⟩

/-- Carnivore near the right wall, about to overshoot it while capturing. -/
def carn1 : Being := ⟨780, 100, (0, 0, 0, 0), 1, .Carnivore, gCarn, 10, 2000⟩

/-- Genetics of the prey standing at the wall (size 10.5). -/
def gPrey1 : Genetics := ⟨0, 21/20, 1, 1⟩

/-- Herbivore prey at distance 10 from carn1, inside the capture radius 10.25. -/
def prey1 : Being := ⟨790, 100, (0, 0, 0, 0), 1, .Herbivore, gPrey1, 10, 3000⟩

/-- World with the capturing carnivore and its prey, no food. -/
def w1 : WorldState := ⟨[carn1, prey1], [], stats0⟩

/-- Genetics of the reproducing herbivore of the C2 scenario. -/
def gH2 : Genetics := ⟨1, 1, 1, 2⟩

/-- Herbivore at the origin that reproduces this tick without eating. -/
def b2c : Being := ⟨0, 0, (0, 0, 0, 0), 1, .Herbivore, gH2, 100, 3000⟩

/-- World holding only the reproducing herbivore. -/
def w2 : WorldState := ⟨[b2c], [], stats0⟩

/-- Tick draws with a failing spawn roll and a passing reproduction roll. -/
def td2 : TickDraws := ⟨1, ⟨0, 0, 0⟩, fun _ => dR⟩

/-- Carnivore of reproductive age that captures prey1 this tick. -/
def carn3 : Being := ⟨780, 100, (0, 0, 0, 0), 1, .Carnivore, gCarn, 100, 2000⟩

/-- Genetics of the small prey of the omnivore scenario (size 8). -/
def gP5 : Genetics := ⟨1, 4/5, 1, 1⟩

/-- Small herbivore at distance 3 from the omnivore, inside its capture radius 9. -/
def p5 : Being := ⟨103, 100, (0, 0, 0, 0), 1, .Herbivore, gP5, 10, 3000⟩

/-- Genetics of the hunting omnivore. -/
def gO5 : Genetics := ⟨1, 1, 1, 20⟩

/-- Omnivore that captures p5 this tick. -/
def o5 : Being := ⟨100, 100, (0, 0, 0, 0), 1, .Omnivore, gO5, 10, 2500⟩

/-- Draws sending the omnivore into the hunt branch with nonzero jitter draws. -/
def d5 : Draws := ⟨1, 1, true, 1, 0, 0, ⟨1, 1, 1, 1⟩⟩

/-- Herbivore whose energy is 0 at tick start, standing next to food. -/
def h6 : Being := ⟨100, 100, (0, 0, 0, 0), 0, .Herbivore, gH, 10, 3000⟩

/-- Food item at distance 3 from h6, inside its eating radius 7.5. -/
def f6 : Food := ⟨103, 100, 1/2⟩

/-- World with the zero-energy herbivore and the adjacent food. -/
def w6 : WorldState := ⟨[h6], [f6], stats0⟩

/-- C1 counterexample: after step the capturing carnivore sits at x = 794,
beyond WINDOW_SIZE - size = 790 — the capture path of Being::update returns
before the clamp, so its position violates the claimed bound. -/
theorem c1_counterexample :
    ¬ ∀ b ∈ (step w1 tdZ).beings,
      0 ≤ b.x ∧ b.x ≤ WINDOW_SIZE - b.size ∧ 0 ≤ b.y ∧ b.y ≤ WINDOW_SIZE - b.size := by
  decide

/-- C2 counterexample: the herbivore of w2 eats nothing (no food exists, no
carnivore exists) yet its post-step energy is the decayed value halved by
reproduction, not the decayed value the claim demands. -/
theorem c2_counterexample :
    (updatesOf w2 td2).map (fun u => u.eaten) = [[]] ∧
    ((step w2 td2).beings.map (fun b => b.energy)) = [999997/2000000, 999997/2000000] ∧
    ¬ ((999997 : ℚ)/2000000
        = b2c.energy - ENERGY_DECAY * (b2c.genetics.size + b2c.genetics.speed)) := by
  decide

/-- C3 counterexample: carn3 captures prey1 and returns early; every
can_replicate condition holds on its finalized state with the passing roll 0,
yet the update's Option slot carries the prey (not offspring) and the
carnivore's energy is not halved — the reproduction check was skipped. -/
theorem c3_counterexample :
    (Being.update carn3 [prey1] [] dR).out = some prey1 ∧
    Being.can_replicate (Being.update carn3 [prey1] [] dR).self dR.roll = true ∧
    (Being.update carn3 [prey1] [] dR).self.energy = 779997/400000 := by
  decide

/-- C5 counterexample: the omnivore o5 captures p5 in the hunt branch and its
final x is the bare chase position 511/5; the claimed unconditional jitter
(jx = 1, speed 1) would have moved it to 511/5 + 1. -/
theorem c5_counterexample :
    (Being.update o5 [p5] [] d5).out = some p5 ∧
    (Being.update o5 [p5] [] d5).self.x = 511/5 ∧
    ¬ ((511 : ℚ)/5 = 511/5 + d5.jx * o5.genetics.speed) := by
  decide

/-- C6 counterexample: h6 starts the tick with energy 0, eats the adjacent
food, and survives: the population still holds it after step and the death
counter does not move. -/
theorem c6_counterexample :
    (w6.beings.map (fun b => b.energy)) = [0] ∧
    (step w6 tdZ).beings.length = 1 ∧
    (step w6 tdZ).stats.total_deaths = w6.stats.total_deaths := by
  decide

/-- C7: for every input genetics value, including out-of-range input, mutate
returns traits inside the fixed bound table: speed in [0.5,3], size in [0.5,2],
reproduction_rate in [0.1,2], perception in [2,30]. -/
theorem c7_mutate_bounds (g : Genetics) (d : MutDraws) :
    1/2 ≤ (g.mutate d).speed ∧ (g.mutate d).speed ≤ 3 ∧
    1/2 ≤ (g.mutate d).size ∧ (g.mutate d).size ≤ 2 ∧
    1/10 ≤ (g.mutate d).reproduction_rate ∧ (g.mutate d).reproduction_rate ≤ 2 ∧
    2 ≤ (g.mutate d).perception ∧ (g.mutate d).perception ≤ 30 := by
  unfold Genetics.mutate
  refine ⟨?_, ?_, ?_, ?_, ?_, ?_, ?_, ?_⟩
  · exact (clampQ_mem _ _ _ (by norm_num)).1
  · exact (clampQ_mem _ _ _ (by norm_num)).2
  · exact (clampQ_mem _ _ _ (by norm_num)).1
  · exact (clampQ_mem _ _ _ (by norm_num)).2
  · exact (clampQ_mem _ _ _ (by norm_num)).1
  · exact (clampQ_mem _ _ _ (by norm_num)).2
  · exact (clampQ_mem _ _ _ (by norm_num)).1
  · exact (clampQ_mem _ _ _ (by norm_num)).2

/-- C4: when can_replicate holds of the parent, its conditions (energy above
the species threshold 0.8, a passing roll, age strictly between 80 and
max_age) all hold, and replicate yields a parent at half energy and a child
that clones the parent except for the bounded position offset, half energy,
mutated genetics and age 0. -/
theorem c4_reproduction_effects (b : Being) (roll : ℚ) (d : Draws)
    (h : Being.can_replicate b roll = true)
    (hx : -20 ≤ d.cdx ∧ d.cdx < 20) (hy : -20 ≤ d.cdy ∧ d.cdy < 20) :
    ((4:ℚ)/5 < b.energy ∧ roll < baseChance b.being_type * b.genetics.reproduction_rate ∧
      80 < b.age ∧ b.age < b.max_age) ∧
    (b.replicate d).1 = { b with energy := b.energy * (1/2) } ∧
    (b.replicate d).2.energy = b.energy * (1/2) ∧
    (b.replicate d).2.age = 0 ∧
    (b.replicate d).2.genetics = b.genetics.mutate d.mutd ∧
    (b.replicate d).2.x = b.x + d.cdx ∧ (b.replicate d).2.y = b.y + d.cdy ∧
    b.x - 20 ≤ (b.replicate d).2.x ∧ (b.replicate d).2.x < b.x + 20 ∧
    b.y - 20 ≤ (b.replicate d).2.y ∧ (b.replicate d).2.y < b.y + 20 ∧
    (b.replicate d).2.being_type = b.being_type ∧
    (b.replicate d).2.max_age = b.max_age ∧
    (b.replicate d).2.color = b.color := by
  simp only [Being.can_replicate, Bool.and_eq_true, decide_eq_true_eq] at h
  obtain ⟨⟨⟨h1, h2⟩, h3⟩, h4⟩ := h
  refine ⟨⟨h1, h2, h3, h4⟩, rfl, rfl, rfl, rfl, rfl, rfl, ?_, ?_, ?_, ?_, rfl, rfl, rfl⟩ <;>
    simp only [Being.replicate] <;> linarith [hx.1, hx.2, hy.1, hy.2]

/-- C4 witness: the reference herbivore with a passing roll and offset draws
(5,-5) satisfies the hypotheses and the conclusions of the theorem. -/
theorem c4_reproduction_effects_witness :
    Being.can_replicate bH dR.roll = true ∧
    (bH.replicate dR).2.age = 0 ∧
    (bH.replicate dR).2.energy = bH.energy * (1/2) ∧
    (bH.replicate dR).1 = { bH with energy := bH.energy * (1/2) } := by
  have h := c4_reproduction_effects bH dR.roll dR (by decide) (by decide) (by decide)
  exact ⟨by decide, h.2.2.2.1, h.2.2.1, h.2.1⟩

/-- C9: a child produced by replicate under a true can_replicate has energy
strictly above 0.4 (half the parent's energy above 0.8) and age 0, so the
commit phase's alive filter keeps it. -/
theorem c9_newborn_alive (b : Being) (roll : ℚ) (d : Draws)
    (h : Being.can_replicate b roll = true) :
    (2:ℚ)/5 < (b.replicate d).2.energy ∧ (b.replicate d).2.age = 0 ∧
    aliveP (b.replicate d).2 = true := by
  simp only [Being.can_replicate, Bool.and_eq_true, decide_eq_true_eq] at h
  have h1 : (4:ℚ)/5 < b.energy := h.1.1.1
  have he : (2:ℚ)/5 < (b.replicate d).2.energy := by
    simp only [Being.replicate]
    linarith
  refine ⟨he, rfl, ?_⟩
  simp only [aliveP, Being.replicate, Bool.not_eq_true', Bool.or_eq_false_iff,
    decide_eq_false_iff_not, not_le, not_lt]
  constructor
  · linarith
  · exact Nat.zero_le _

/-- C9 witness: the reference herbivore with the passing roll yields a child
kept by the alive filter. -/
theorem c9_newborn_alive_witness :
    Being.can_replicate bH dR.roll = true ∧ aliveP (bH.replicate dR).2 = true := by
  have h := c9_newborn_alive bH dR.roll dR (by decide)
  exact ⟨by decide, h.2.2⟩

/-- C8: after step the population is at most MAX_BEINGS (truncation), and if
the food count was at most MAX_FOOD before the tick it still is afterwards
(the spawn is gated on being strictly below the cap and adds one item; the
commit only removes items). -/
theorem c8_caps (w : WorldState) (td : TickDraws) :
    (step w td).beings.length ≤ MAX_BEINGS ∧
    (w.foods.length ≤ MAX_FOOD → (step w td).foods.length ≤ MAX_FOOD) := by
  constructor
  · simp only [step]
    split
    · rw [List.length_take]
      exact min_le_left _ _
    · omega
  · intro h
    simp only [step]
    refine le_trans (commitFoods_len_le _ _) ?_
    unfold spawnFoods
    split
    · next hc =>
      rw [List.length_append]
      simp only [List.length_cons, List.length_nil]
      omega
    · exact h

/-- C8 witness: the empty world satisfies the food hypothesis and both caps. -/
theorem c8_caps_witness :
    (step (WorldState.mk [] [] stats0) tdZ).beings.length ≤ MAX_BEINGS ∧
    (WorldState.mk [] [] stats0).foods.length ≤ MAX_FOOD ∧
    (step (WorldState.mk [] [] stats0) tdZ).foods.length ≤ MAX_FOOD := by
  have h := c8_caps (WorldState.mk [] [] stats0) tdZ
  exact ⟨h.1, by decide, h.2 (by decide)⟩

/-- C10: the death counter grows by exactly the number of merged beings (updated
selves plus appended Option-slot beings) removed by the alive filter — a formula
in which the population cap does not occur — while the post-step population
length is the survivor count capped at MAX_BEINGS; truncation therefore removes
beings without touching any counter. -/
theorem c10_truncation_uncounted (w : WorldState) (td : TickDraws) :
    (step w td).stats.total_deaths
      = w.stats.total_deaths
        + ((mergeBirths (updatesOf w td)).length
            - ((mergeBirths (updatesOf w td)).filter aliveP).length) ∧
    (step w td).beings.length
      = min MAX_BEINGS ((mergeBirths (updatesOf w td)).filter aliveP).length := by
  constructor
  · simp only [step]
    rw [countP_not_eq]
  · simp only [step]
    split
    · next hgt => rw [List.length_take]
    · next hle => omega


/-- Omnivore used by the C5 witness. -/
def bO : Being := ⟨100, 100, (0, 0, 0, 0), 1, .Omnivore, gH, 100, 2500⟩

/-- A clamped position lies in [0, WINDOW_SIZE - size] when that interval is nonempty. -/
theorem clampPos_bounds (b : Being) (h : (0:ℚ) ≤ WINDOW_SIZE - b.size) :
    0 ≤ b.clampPos.x ∧ b.clampPos.x ≤ WINDOW_SIZE - b.size ∧
    0 ≤ b.clampPos.y ∧ b.clampPos.y ≤ WINDOW_SIZE - b.size :=
  ⟨(minmax_mem b.x _ h).1, (minmax_mem b.x _ h).2,
   (minmax_mem b.y _ h).1, (minmax_mem b.y _ h).2⟩

/-- C1 (amended): after Being::update, every being whose species branch did
not capture prey has its position clamped into [0, WINDOW_SIZE - size]
(assuming the genetic size leaves that interval nonempty); the capture path
returns before the clamp and offspring are created unclamped. -/
theorem c1_amended_clamp (b : Being) (beings : List Being) (foods : List Food) (d : Draws)
    (hs : b.genetics.size ≤ 80)
    (hp : Being.preyOf b beings foods d = none) :
    (0 ≤ (Being.update b beings foods d).self.x ∧
     (Being.update b beings foods d).self.x ≤ WINDOW_SIZE - b.size ∧
     0 ≤ (Being.update b beings foods d).self.y ∧
     (Being.update b beings foods d).self.y ≤ WINDOW_SIZE - b.size) ∧
    (Being.update b beings foods d).self.size = b.size := by
  have hg := branchFull_genetics b beings foods d
  have hsz : (Being.branchFull b beings foods d).1.size = b.size := by
    simp [Being.size, hg]
  have hC : (0:ℚ) ≤ WINDOW_SIZE - (Being.branchFull b beings foods d).1.size := by
    rw [hsz]
    simp only [Being.size, WINDOW_SIZE, BASE_BEING_SIZE]
    linarith
  have hb := clampPos_bounds (Being.branchFull b beings foods d).1 hC
  rw [hsz] at hb
  unfold Being.update
  rw [hp]
  dsimp only
  by_cases hcr : (Being.clampPos (Being.branchFull b beings foods d).1).can_replicate d.roll = true
  · rw [if_pos hcr]
    exact ⟨⟨hb.1, hb.2.1, hb.2.2.1, hb.2.2.2⟩, by simp [Being.size, Being.replicate, Being.clampPos, hg]⟩
  · rw [if_neg hcr]
    exact ⟨⟨hb.1, hb.2.1, hb.2.2.1, hb.2.2.2⟩, by simp [Being.size, Being.clampPos, hg]⟩

/-- C1 witness: the reference herbivore alone in an empty world satisfies the
hypotheses, and its updated position obeys the clamp bounds. -/
theorem c1_amended_clamp_witness :
    bH.genetics.size ≤ 80 ∧ Being.preyOf bH [] [] dZ = none ∧
    ((0 ≤ (Being.update bH [] [] dZ).self.x ∧
      (Being.update bH [] [] dZ).self.x ≤ WINDOW_SIZE - bH.size ∧
      0 ≤ (Being.update bH [] [] dZ).self.y ∧
      (Being.update bH [] [] dZ).self.y ≤ WINDOW_SIZE - bH.size) ∧
     (Being.update bH [] [] dZ).self.size = bH.size) := by
  have h := c1_amended_clamp bH [] [] dZ (by decide) (by decide)
  exact ⟨by decide, by decide, h⟩

/-- C2 (amended): a being that neither eats food, nor captures prey, nor
reproduces this tick ends its update with exactly the decayed energy
(beings are never eaten in this code, so nothing is removed by predation). -/
theorem c2_amended_energy (b : Being) (beings : List Being) (foods : List Food) (d : Draws)
    (hp : Being.preyOf b beings foods d = none)
    (he : (Being.update b beings foods d).eaten = [])
    (ho : (Being.update b beings foods d).out = none) :
    (Being.update b beings foods d).self.energy
      = b.energy - ENERGY_DECAY * (b.genetics.size + b.genetics.speed) := by
  unfold Being.update at he ho ⊢
  rw [hp] at he ho ⊢
  dsimp only at he ho ⊢
  by_cases hcr : (Being.clampPos (Being.branchFull b beings foods d).1).can_replicate d.roll = true
  · rw [if_pos hcr] at ho
    simp at ho
  · rw [if_neg hcr] at he ⊢
    exact branchFull_energy b beings foods d hp he

/-- C2 witness: the reference herbivore with no food and a failing
reproduction roll eats nothing, produces nothing, and loses exactly the decay. -/
theorem c2_amended_energy_witness :
    Being.preyOf bH [] [] dZ = none ∧
    (Being.update bH [] [] dZ).eaten = [] ∧
    (Being.update bH [] [] dZ).out = none ∧
    (Being.update bH [] [] dZ).self.energy
      = bH.energy - ENERGY_DECAY * (bH.genetics.size + bH.genetics.speed) := by
  refine ⟨by decide, by decide, by decide, ?_⟩
  exact c2_amended_energy bH [] [] dZ (by decide) (by decide) (by decide)

/-- C3 (amended): for every being whose species branch captured no prey, the
offspring slot is filled exactly when the single can_replicate evaluation on
the clamped post-branch self passes; on capture ticks the early return skips
the reproduction check entirely. -/
theorem c3_amended_reproduction_gate (b : Being) (beings : List Being) (foods : List Food)
    (d : Draws)
    (hp : Being.preyOf b beings foods d = none) :
    (Being.update b beings foods d).out.isSome
      = (Being.clampPos (Being.branchFull b beings foods d).1).can_replicate d.roll := by
  unfold Being.update
  rw [hp]
  dsimp only
  by_cases hcr : (Being.clampPos (Being.branchFull b beings foods d).1).can_replicate d.roll = true
  · rw [if_pos hcr, hcr]
    rfl
  · rw [if_neg hcr]
    rw [Bool.not_eq_true] at hcr
    rw [hcr]
    rfl

/-- C3 witness: the reference herbivore captures nothing and its offspring
slot agrees with the can_replicate evaluation on its clamped self. -/
theorem c3_amended_reproduction_gate_witness :
    Being.preyOf bH [] [] dZ = none ∧
    (Being.update bH [] [] dZ).out.isSome
      = (Being.clampPos (Being.branchFull bH [] [] dZ).1).can_replicate dZ.roll := by
  refine ⟨by decide, ?_⟩
  exact c3_amended_reproduction_gate bH [] [] dZ (by decide)

/-- C5 (amended): an omnivore that captures no prey this tick gets the
unconditional jitter added after its hunt or forage movement (the final
position is the jittered position fed through the clamp); on capture ticks the
early return skips the jitter. -/
theorem c5_amended_jitter (b : Being) (beings : List Being) (foods : List Food) (d : Draws)
    (hb : b.being_type = BeingType.Omnivore)
    (hp : Being.preyOf b beings foods d = none) :
    (Being.update b beings foods d).self.x
      = min (max ((Being.omnivore_pre b.decayAge (b.filteredFrom beings) foods
            b.genetics.perception d).1.x + d.jx * b.genetics.speed) 0)
          (WINDOW_SIZE - b.size) ∧
    (Being.update b beings foods d).self.y
      = min (max ((Being.omnivore_pre b.decayAge (b.filteredFrom beings) foods
            b.genetics.perception d).1.y + d.jy * b.genetics.speed) 0)
          (WINDOW_SIZE - b.size) := by
  have hdt : b.decayAge.being_type = BeingType.Omnivore := by
    simp [Being.decayAge, hb]
  have hbf : Being.branchFull b beings foods d
      = ((Being.update_omnivore b.decayAge (b.filteredFrom beings) foods
            b.genetics.perception d).1,
         (Being.update_omnivore b.decayAge (b.filteredFrom beings) foods
            b.genetics.perception d).2.2,
         (Being.update_omnivore b.decayAge (b.filteredFrom beings) foods
            b.genetics.perception d).2.1) := by
    unfold Being.branchFull Being.branch
    rw [hdt]
  have hpo : (Being.update_omnivore b.decayAge (b.filteredFrom beings) foods
      b.genetics.perception d).2.1 = none := by
    have h2 := hp
    unfold Being.preyOf at h2
    rw [hbf] at h2
    exact h2
  have hun := update_omnivore_of_none b.decayAge (b.filteredFrom beings) foods
    b.genetics.perception d hpo
  have hpg := omnivore_pre_genetics b.decayAge (b.filteredFrom beings) foods
    b.genetics.perception d
  have hr1 : (Being.branchFull b beings foods d).1
      = (Being.omnivore_pre b.decayAge (b.filteredFrom beings) foods
          b.genetics.perception d).1.random_movement d := by
    rw [hbf]
    exact hun
  have hg := branchFull_genetics b beings foods d
  have hsz : (Being.branchFull b beings foods d).1.size = b.size := by
    simp [Being.size, hg]
  have hx : (Being.branchFull b beings foods d).1.x
      = (Being.omnivore_pre b.decayAge (b.filteredFrom beings) foods
          b.genetics.perception d).1.x + d.jx * b.genetics.speed := by
    rw [hr1]
    simp only [Being.random_movement]
    rw [hpg]
    rfl
  have hy : (Being.branchFull b beings foods d).1.y
      = (Being.omnivore_pre b.decayAge (b.filteredFrom beings) foods
          b.genetics.perception d).1.y + d.jy * b.genetics.speed := by
    rw [hr1]
    simp only [Being.random_movement]
    rw [hpg]
    rfl
  unfold Being.update
  rw [hp]
  dsimp only
  by_cases hcr : (Being.clampPos (Being.branchFull b beings foods d).1).can_replicate d.roll = true
  · rw [if_pos hcr]
    constructor
    · show (Being.clampPos (Being.branchFull b beings foods d).1).x = _
      simp only [Being.clampPos, hsz, hx]
    · show (Being.clampPos (Being.branchFull b beings foods d).1).y = _
      simp only [Being.clampPos, hsz, hy]
  · rw [if_neg hcr]
    constructor
    · show (Being.clampPos (Being.branchFull b beings foods d).1).x = _
      simp only [Being.clampPos, hsz, hx]
    · show (Being.clampPos (Being.branchFull b beings foods d).1).y = _
      simp only [Being.clampPos, hsz, hy]

/-- C5 witness: a foraging omnivore alone in an empty world captures nothing
and its final position is its hunt/forage position plus the jitter, clamped. -/
theorem c5_amended_jitter_witness :
    bO.being_type = BeingType.Omnivore ∧
    Being.preyOf bO [] [] dZ = none ∧
    (Being.update bO [] [] dZ).self.x
      = min (max ((Being.omnivore_pre bO.decayAge (bO.filteredFrom []) []
            bO.genetics.perception dZ).1.x + dZ.jx * bO.genetics.speed) 0)
          (WINDOW_SIZE - bO.size) := by
  refine ⟨by decide, by decide, ?_⟩
  exact (c5_amended_jitter bO [] [] dZ (by decide) (by decide)).1



/-- A being never appears in its own filtered_beings list. -/
theorem filteredFrom_self (b : Being) : b.filteredFrom [b] = [] := by
  unfold Being.filteredFrom
  cases hb : b.being_type
  · rfl
  · simp [hb]
  · simp [hb]

/-- A lone being with no food captures nothing and eats nothing this tick. -/
theorem lone_branchFull (b : Being) (d : Draws) :
    (Being.branchFull b [b] [] d).2.2 = none ∧ (Being.branchFull b [b] [] d).2.1 = [] := by
  unfold Being.branchFull Being.branch
  rw [filteredFrom_self]
  have hdt : b.decayAge.being_type = b.being_type := rfl
  rw [hdt]
  cases hb : b.being_type
  · exact ⟨rfl, rfl⟩
  · exact ⟨rfl, rfl⟩
  · unfold Being.update_omnivore Being.omnivore_pre
    cases hB : d.huntBranch
    · exact ⟨rfl, rfl⟩
    · exact ⟨rfl, rfl⟩

/-- C6 (amended): a being that starts the tick with energy 0 and consumes
nothing during it (here: it is alone and no food exists or spawns) decays to
negative energy, fails the alive filter, and is gone after step with the
death counter up by exactly 1 — provided its genetic size plus speed is
positive so the decay is nonzero. -/
theorem c6_amended_starvation_death (w : WorldState) (td : TickDraws) (b : Being)
    (hw : w.beings = [b]) (hf : w.foods = [])
    (hr : ¬ td.spawnRoll < FOOD_SPAWN_RATE)
    (he : b.energy = 0)
    (hsz : 0 < b.genetics.size + b.genetics.speed) :
    (step w td).beings = [] ∧
    (step w td).stats.total_deaths = w.stats.total_deaths + 1 := by
  have hspawn : spawnFoods w.foods td = [] := by
    simp [spawnFoods, hf, hr]
  have hupd : updatesOf w td = [Being.update b [b] [] (td.d 0)] := by
    unfold updatesOf
    rw [hw, hspawn]
    simp [List.enum, List.enumFrom]
  obtain ⟨hpnone, heat⟩ := lone_branchFull b (td.d 0)
  have hen : (Being.branchFull b [b] [] (td.d 0)).1.energy
      = - (ENERGY_DECAY * (b.genetics.size + b.genetics.speed)) := by
    rw [branchFull_energy b [b] [] (td.d 0) hpnone heat, he]
    ring
  have hneg : (Being.branchFull b [b] [] (td.d 0)).1.energy < 0 := by
    rw [hen]
    have hd : (0:ℚ) < ENERGY_DECAY := by norm_num [ENERGY_DECAY]
    have hpos := mul_pos hd hsz
    linarith
  have hcr : (Being.clampPos (Being.branchFull b [b] [] (td.d 0)).1).can_replicate
      (td.d 0).roll = false := by
    have hlt : ¬ ((4:ℚ)/5
        < (Being.clampPos (Being.branchFull b [b] [] (td.d 0)).1).energy) := by
      have hcl : (Being.clampPos (Being.branchFull b [b] [] (td.d 0)).1).energy
          = (Being.branchFull b [b] [] (td.d 0)).1.energy := rfl
      rw [hcl]
      linarith
    simp [Being.can_replicate, hlt]
  have hupd1 : Being.update b [b] [] (td.d 0)
      = ⟨Being.clampPos (Being.branchFull b [b] [] (td.d 0)).1,
         (Being.branchFull b [b] [] (td.d 0)).2.1, none⟩ := by
    have hp2 : Being.preyOf b [b] [] (td.d 0) = none := hpnone
    unfold Being.update
    rw [hp2]
    dsimp only
    rw [if_neg]
    simp [hcr]
  have hle : (Being.clampPos (Being.branchFull b [b] [] (td.d 0)).1).energy ≤ 0 :=
    le_of_lt hneg
  have halive : aliveP (Being.clampPos (Being.branchFull b [b] [] (td.d 0)).1) = false := by
    simp [aliveP, hle]
  constructor
  · simp only [step]
    rw [hupd, hupd1]
    simp [mergeBirths, halive]
  · simp only [step]
    rw [hupd, hupd1]
    simp [mergeBirths, halive, List.countP_cons]

/-- World of the C6 witness: the zero-energy herbivore alone with no food. -/
def w6b : WorldState := ⟨[h6], [], stats0⟩

/-- C6 witness: the concrete zero-energy herbivore with no food dies this
tick and is counted exactly once. -/
theorem c6_amended_starvation_death_witness :
    w6b.beings = [h6] ∧ w6b.foods = [] ∧ ¬ tdZ.spawnRoll < FOOD_SPAWN_RATE ∧
    h6.energy = 0 ∧ 0 < h6.genetics.size + h6.genetics.speed ∧
    ((step w6b tdZ).beings = [] ∧
     (step w6b tdZ).stats.total_deaths = w6b.stats.total_deaths + 1) := by
  refine ⟨rfl, rfl, by decide, rfl, by decide, ?_⟩
  exact c6_amended_starvation_death w6b tdZ h6 rfl rfl (by decide) rfl (by decide)


end SimpleLife
